import Mathlib

/-!
Shallow embedding of the reactive-configuration core of
`MFueg/vscode-extension-util` (src/event/event.ts, src/config/config.ts,
src/logger.ts), together with theorems checking the natural-language
specification against it.

Conventions of the embedding:
* TypeScript `Value | undefined` becomes `Option JsVal`, with `none`
  standing for JavaScript `undefined`.
* Configuration values are drawn from the universe `JsVal` of `null` and
  string values, which is closed under everything the code does to them
  (the classes are generic in `Value`; this instantiation is faithful for
  these runtime values).  JavaScript loose equality `==`/`!=` and
  truthiness are embedded for exactly this universe.
* Stateful methods become functions from the mutable state to the new
  state; a method that fires the embedded `EventSource` additionally
  returns the list of values passed to `notify`, in order.
* The external `vscode.WorkspaceConfiguration` is a lookup function
  `String → Option JsVal` (`none` = no entry); `get(section, default)`
  returns the stored value unless it is `undefined`, in which case the
  default is returned, matching the host API.
-/

/-- The universe of raw configuration values used to instantiate the
generic `Value` parameter: JavaScript `null` and strings.  `undefined` is
represented outside, as `Option.none`. -/
inductive JsVal : Type where
  | nullV : JsVal
  | strV : String → JsVal
deriving DecidableEq, Repr

/-- JavaScript loose equality `==` restricted to the universe
`{undefined, null, strings}`: `undefined == null` is `true`, a string is
loosely equal only to the identical string, and `null`/`undefined` are
never loosely equal to any string. -/
def jsEq : Option JsVal → Option JsVal → Bool
  | none, none => true
  | none, some JsVal.nullV => true
  | some JsVal.nullV, none => true
  | some JsVal.nullV, some JsVal.nullV => true
  | some (JsVal.strV a), some (JsVal.strV b) => a == b
  | _, _ => false

/-- JavaScript loose inequality `!=` on the same universe. -/
def jsNeq (a b : Option JsVal) : Bool := !(jsEq a b)

/-- JavaScript truthiness (`ToBoolean`) on the same universe:
`undefined`, `null` and the empty string are falsy, every other string is
truthy. -/
def jsTruthy : Option JsVal → Bool
  | none => false
  | some JsVal.nullV => false
  | some (JsVal.strV s) => !(s == "")

/-- The external raw configuration source
(`vscode.WorkspaceConfiguration`): total lookup by section name, `none`
meaning the source has no entry (JavaScript `undefined`). -/
def WorkspaceConfig : Type := String → Option JsVal

/-- `vscodeConfig.get<Value>(name, defaultValue)`: the stored value when
it is defined, otherwise the supplied default (the host substitutes the
default only for `undefined`). -/
def cfgGetD (cfg : WorkspaceConfig) (name : String) (dflt : Option JsVal) :
    Option JsVal :=
  match cfg name with
  | none => dflt
  | some v => some v

/-- `vscodeConfig.get<Value>(name)` without a default. -/
def cfgGet (cfg : WorkspaceConfig) (name : String) : Option JsVal :=
  cfg name

/-! ## EventSource (src/event/event.ts) -/

/-- `EventSource<T>`: its one piece of state, the `handlers` map from
generated handler id to callback.  The `Map<string, EventHandler<T>>` is
embedded as an association list in insertion order; callbacks are kept
abstract as values of a type `H`. -/
structure EventSource (H : Type) where
  handlers : List (String × H)
deriving DecidableEq, Repr

/-- A freshly constructed `EventSource` has no handlers. -/
def EventSource.empty (H : Type) : EventSource H := ⟨[]⟩

/-- `register(handler)`: stores the handler under a freshly generated id
(`uuid()` is embedded by passing the generated id explicitly). -/
def EventSource.registerWith (es : EventSource H) (handlerId : String)
    (handler : H) : EventSource H :=
  ⟨es.handlers ++ [(handlerId, handler)]⟩

/-- `unregister(handlerId)`: `Map.delete`, removing the entry stored
under the id when present and doing nothing otherwise. -/
def EventSource.unregister (es : EventSource H) (handlerId : String) :
    EventSource H :=
  ⟨es.handlers.filter (fun kv => !(kv.1 == handlerId))⟩

/-- `notify(value)`: invokes every currently registered handler in map
order; the embedding returns the callbacks invoked, in order. -/
def EventSource.notifyTargets (es : EventSource H) : List H :=
  es.handlers.map (fun kv => kv.2)

/-- The ids currently present in the `handlers` map. -/
def EventSource.ids (es : EventSource H) : List String :=
  es.handlers.map (fun kv => kv.1)

/-- `isEventSource(obj)`: the runtime type guard reads the field named
`"handler"` of the object and tests `instanceof Map`.  `mapFields` lists
the fields of a `ConfigurationProperty` instance that hold a `Map`; the
only one is `handlers` (inherited from `EventSource`), so the guard's
read of `handler` yields `undefined`, which is not a `Map`. -/
def mapFields : List String := ["handlers"]

/-- `isEventSource` as written in src/event/event.ts line 37: tests
whether the field literally named `"handler"` is a `Map`. -/
def isEventSource : Bool := mapFields.contains "handler"

/-! ## ConfigurationProperty (src/config/config.ts) -/

/-- The immutable construction data of a `ConfigurationProperty`:
`name`, `group`, `validator`, `defaultValue`, `symbolResolvers`,
`cached`.  `SymbolResolverI.resolve : string → string` is embedded as a
Lean function on strings. -/
structure PropMeta where
  name : String
  group : String
  validator : Option JsVal → Bool
  defaultValue : Option JsVal := none
  symbolResolvers : List (String → String) := []
  cached : Bool := false

/-- The mutable state of a `ConfigurationProperty`: `value` and `valid`.
The embedded `EventSource` handler map is tracked separately; methods
report the values they pass to `notify`. -/
structure PropState where
  value : Option JsVal
  valid : Bool
deriving Repr

/-- Field initialisation at construction: `value = defaultValue`,
`valid = validator(value)`. -/
def PropMeta.initState (m : PropMeta) : PropState :=
  { value := m.defaultValue, valid := m.validator m.defaultValue }

/-- The raw re-read inside `refresh`:
`this.defaultValue ? vscodeConfig.get(name, defaultValue) :
vscodeConfig.get(name)` — the default branch is selected by JavaScript
truthiness of `defaultValue`. -/
def PropMeta.readRaw (m : PropMeta) (cfg : WorkspaceConfig) : Option JsVal :=
  if jsTruthy m.defaultValue
    then cfgGetD cfg m.name m.defaultValue
    else cfgGet cfg m.name

/-- `refresh(vscodeConfig)` (private): re-reads the raw value
(`readRaw`), compares it to the stored `value` with JavaScript `!=`,
stores the new `value` and `valid`, and fires `notify(this.value)` when
the comparison said they differ.  Returns the new state together with
the list of notified values. -/
def PropMeta.refresh (m : PropMeta) (s : PropState) (cfg : WorkspaceConfig) :
    PropState × List (Option JsVal) :=
  let v := m.readRaw cfg
  let changed := jsNeq s.value v
  let s' : PropState := { value := v, valid := m.validator v }
  (s', if changed then [s'.value] else [])

/-- `reload(vscodeConfig)`: calls `refresh` when `cached` is set,
otherwise does nothing. -/
def PropMeta.reload (m : PropMeta) (s : PropState) (cfg : WorkspaceConfig) :
    PropState × List (Option JsVal) :=
  if m.cached then m.refresh s cfg else (s, [])

/-- `get(vscodeConfig)`: calls `refresh` when `cached` is not set, then
returns `this.value`.  Result: (returned value, new state, notified
values). -/
def PropMeta.get (m : PropMeta) (s : PropState) (cfg : WorkspaceConfig) :
    Option JsVal × PropState × List (Option JsVal) :=
  if !m.cached then
    let (s', evs) := m.refresh s cfg
    (s'.value, s', evs)
  else
    (s.value, s, [])

/-- `isValid()`: returns the stored `valid` flag. -/
def PropMeta.isValid (_m : PropMeta) (s : PropState) : Bool := s.valid

/-! ## Symbol resolution (src/config/symbol.ts, not shipped in src/) -/

/-- Modelled from the spec: `resolveSymbols(value, resolvers)` from the
missing src/config/symbol.ts.  "For string-typed `V`, applies each
resolver's substitution in order", each resolver seeing the previous
one's output; non-string values pass through unchanged.  A resolver is
its `resolve : string → string`. -/
def resolveSymbols (v : Option JsVal) (resolvers : List (String → String)) :
    Option JsVal :=
  match v with
  | some (JsVal.strV s) =>
      some (JsVal.strV (resolvers.foldl (fun acc r => r acc) s))
  | other => other

/-- Whether `pat` occurs at the head of `l`. -/
def matchesAt : List Char → List Char → Bool
  | [], _ => true
  | _ :: _, [] => false
  | p :: ps, c :: cs => p == c && matchesAt ps cs

/-- One fueled pass of token substitution over a character list: each
occurrence of `pat` is replaced by `repl`, other characters are kept
verbatim.  The fuel is the input length, consumed one unit per step. -/
def substAux (pat repl : List Char) : Nat → List Char → List Char
  | 0, l => l
  | _ + 1, [] => []
  | n + 1, c :: rest =>
    if !pat.isEmpty && matchesAt pat (c :: rest) then
      repl ++ substAux pat repl n (List.drop pat.length (c :: rest))
    else
      c :: substAux pat repl n rest

/-- Modelled from the spec: placeholder substitution — every occurrence
of `pat` inside `s` becomes `repl`, all other text is left verbatim. -/
def substToken (s pat repl : String) : String :=
  ⟨substAux pat.data repl.data s.data.length s.data⟩

/-- Modelled from the spec: `WorkspaceSymbolResolver` from the missing
src/config/symbol.ts — "substitutes a reserved placeholder syntax (e.g. a
`$\x7bworkspaceFolder\x7d`-style token) with `workspaceRoot`"; other text
is left verbatim. -/
def workspaceSymbolResolver (workspaceRoot : String) : String → String :=
  fun s => substToken s "$\x7bworkspaceFolder\x7d" workspaceRoot

/-! ## Configuration (src/config/config.ts) -/

/-- The `Configuration` registry: its name, the bound workspace folder
(kept as its uri string), the `properties` map in insertion order, and
the registry-level `symbolResolvers` chain. -/
structure Configuration where
  configurationName : String
  workspaceUri : String
  entries : List (PropMeta × PropState)
  symbolResolvers : List (String → String)

/-- `getPropertyIdentifier(property, kind)`: the long form is
`"<configurationName>.<property.name>"`, the short form is the bare
property name. -/
def Configuration.getPropertyIdentifier (c : Configuration) (m : PropMeta)
    (long : Bool) : String :=
  if long then c.configurationName ++ "." ++ m.name else m.name

/-- `getProperty(name)`: plain `Map.get` lookup, `none` when the name is
unknown. -/
def Configuration.getProperty (c : Configuration) (name : String) :
    Option (PropMeta × PropState) :=
  c.entries.find? (fun e => e.1.name == name)

/-- `getProperties(filter?)`: every property, or only those whose
`group` equals the filter when one is supplied. -/
def Configuration.getProperties (c : Configuration) (filter : Option String) :
    List (PropMeta × PropState) :=
  c.entries.filter (fun e =>
    match filter with
    | none => true
    | some g => g == e.1.group)

/-- `reload()`: calls `reload(vscodeConfig)` on every owned property. -/
def Configuration.reloadAll (c : Configuration) (cfg : WorkspaceConfig) :
    Configuration :=
  { c with entries := c.entries.map (fun e => (e.1, (e.1.reload e.2 cfg).1)) }

/-- The registered `onDidChangeConfiguration` handler: for every owned
property (`getProperties()`), when the change event `affects` the
property's long identifier at this registry's workspace uri, call that
property's `reload(vscodeConfig)`; otherwise leave it alone.  The change
event is its `affectsConfiguration` predicate. -/
def Configuration.handleConfigChange (c : Configuration)
    (affects : String → String → Bool) (cfg : WorkspaceConfig) :
    Configuration :=
  { c with entries := c.entries.map (fun e =>
      if affects (c.getPropertyIdentifier e.1 true) c.workspaceUri then
        (e.1, (e.1.reload e.2 cfg).1)
      else e) }

/-- Construction: seed the resolver chain with one
`WorkspaceSymbolResolver` for the workspace, register the change
handler, and perform the initial `reload()`.  Each property starts in
its constructed state. -/
def Configuration.mk' (configurationName workspaceUri : String)
    (metas : List PropMeta) (cfg : WorkspaceConfig) : Configuration :=
  Configuration.reloadAll
    { configurationName := configurationName
      workspaceUri := workspaceUri
      entries := metas.map (fun m => (m, m.initState))
      symbolResolvers := [workspaceSymbolResolver workspaceUri] }
    cfg

/-- `resolveValue(value, symbolResolvers)` (private): resolves through
the registry chain concatenated with the property chain. -/
def Configuration.resolveValue (c : Configuration) (v : Option JsVal)
    (symbolResolvers : List (String → String)) : Option JsVal :=
  resolveSymbols v (c.symbolResolvers ++ symbolResolvers)

/-- `getResolvedPropertyValue(property)`: looks the property up, reads
its raw value via `get(vscodeConfig)`, resolves it via `resolveValue`
with the property's own resolvers; `undefined` when the name is
unknown.  The embedding also returns the registry with the property's
possibly updated state. -/
def Configuration.getResolvedPropertyValue (c : Configuration)
    (name : String) (cfg : WorkspaceConfig) : Option JsVal × Configuration :=
  match c.getProperty name with
  | none => (none, c)
  | some (m, s) =>
      let (v, s', _) := m.get s cfg
      (c.resolveValue v m.symbolResolvers,
       { c with entries := c.entries.map (fun e =>
           if e.1.name == name then (e.1, s') else e) })

/-- The two failure modes of `subscribeToProperty`: the thrown strings
`Could not find a property …` and `… is not of base type EventSource`. -/
inductive SubscribeError : Type where
  | unknownProperty : SubscribeError
  | notObservable : SubscribeError
deriving DecidableEq, Repr

/-- `subscribeToProperty(name, handler)`: throws `unknownProperty` when
the lookup fails, throws `notObservable` when the `isEventSource` guard
rejects the property, and otherwise delegates to the property's
`EventSource.register`. -/
def Configuration.subscribeToProperty (c : Configuration) (name : String) :
    Except SubscribeError Unit :=
  match c.getProperty name with
  | none => Except.error SubscribeError.unknownProperty
  | some _ =>
      if !isEventSource then Except.error SubscribeError.notObservable
      else Except.ok ()

/-! ## SelectiveLogger (src/logger.ts) -/

/-- The four log levels. -/
inductive LogLevel : Type where
  | debug : LogLevel
  | info : LogLevel
  | warning : LogLevel
  | error : LogLevel
deriving DecidableEq, Repr

/-- A `SelectiveLogger` as far as its filtering decisions go: the core
logger's `enabled` flag and the configured `level`. -/
structure SelectiveLogger where
  coreEnabled : Bool
  level : LogLevel

/-- The `enabled` getter: forwards the core logger's flag. -/
def SelectiveLogger.enabled (l : SelectiveLogger) : Bool := l.coreEnabled

/-- Whether `debug(message)` forwards to `core.debug`:
`this.enabled && this.level == LogLevelDebug`. -/
def SelectiveLogger.debugForwards (l : SelectiveLogger) : Bool :=
  l.enabled && (l.level == LogLevel.debug)

/-- Whether `info(message)` forwards to `core.info`:
`(this.enabled && this.level == LogLevelDebug) || this.level == LogLevelInfo`. -/
def SelectiveLogger.infoForwards (l : SelectiveLogger) : Bool :=
  (l.enabled && (l.level == LogLevel.debug)) || (l.level == LogLevel.info)

/-- Whether `warn(message)` forwards to `core.warn`:
`this.enabled && this.level != LogLevelError`. -/
def SelectiveLogger.warnForwards (l : SelectiveLogger) : Bool :=
  l.enabled && !(l.level == LogLevel.error)

/-- Whether `error(message)` forwards to `core.error`: `this.enabled`. -/
def SelectiveLogger.errorForwards (l : SelectiveLogger) : Bool :=
  l.enabled

/-! ## Concrete fixtures used by witnesses and counterexamples -/

/-- A validator accepting everything. -/
def anyValid : Option JsVal → Bool := fun _ => true

/-- A cached property `propA` with no default. -/
def cachedMeta : PropMeta :=
  { name := "propA", group := "g", validator := anyValid,
    defaultValue := none, symbolResolvers := [], cached := true }

/-- An uncached property `propB` with no default. -/
def uncachedMeta : PropMeta :=
  { name := "propB", group := "g", validator := anyValid,
    defaultValue := none, symbolResolvers := [], cached := false }

/-- A cached property whose default value is the (falsy) empty string. -/
def emptyStrDefaultMeta : PropMeta :=
  { name := "propC", group := "g", validator := anyValid,
    defaultValue := some (JsVal.strV ""), symbolResolvers := [],
    cached := true }

/-- A cached property with the truthy default `"dflt"`. -/
def truthyDefaultMeta : PropMeta :=
  { name := "propD", group := "g", validator := anyValid,
    defaultValue := some (JsVal.strV "dflt"), symbolResolvers := [],
    cached := true }

/-- A cached property accepting only the value `"ok"`. -/
def pickyMeta : PropMeta :=
  { name := "propE", group := "g",
    validator := fun v => v == some (JsVal.strV "ok"),
    defaultValue := none, symbolResolvers := [], cached := true }

/-- A raw source with no entries at all. -/
def emptyCfg : WorkspaceConfig := fun _ => none

/-- A raw source answering `null` for every key. -/
def nullCfg : WorkspaceConfig := fun _ => some JsVal.nullV

/-- A raw source answering the same string for every key. -/
def strCfg (s : String) : WorkspaceConfig := fun _ => some (JsVal.strV s)

/-- The registry `myExt` bound to workspace `wsW`, owning `propA`
(cached) and `propB` (uncached), built over the empty raw source. -/
def demoConfig : Configuration :=
  Configuration.mk' "myExt" "wsW" [cachedMeta, uncachedMeta] emptyCfg

/-- A change event affecting exactly the qualified key `myExt.propA`
within workspace `wsW`. -/
def demoAffects : String → String → Bool :=
  fun key uri => key == "myExt.propA" && uri == "wsW"

/-- A property-specific resolver substituting the `$\x7bx\x7d` token
with `42`. -/
def xResolver : String → String :=
  fun s => substToken s "$\x7bx\x7d" "42"

/-- An uncached property `propR` carrying `xResolver` as its own
symbol resolver. -/
def resolverDemoMeta : PropMeta :=
  { name := "propR", group := "g", validator := anyValid,
    defaultValue := none, symbolResolvers := [xResolver], cached := false }

/-- A raw source answering `"$\x7bworkspaceFolder\x7d/$\x7bx\x7d"` for
every key. -/
def resolverDemoCfg : WorkspaceConfig :=
  fun _ => some (JsVal.strV "$\x7bworkspaceFolder\x7d/$\x7bx\x7d")

/-- The registry `myExt` bound to workspace root `/ws`, owning `propR`. -/
def resolverDemoConfig : Configuration :=
  Configuration.mk' "myExt" "/ws" [resolverDemoMeta] resolverDemoCfg

/-! ## Helper lemmas -/

/-- JavaScript loose equality is reflexive on this value universe. -/
theorem jsEq_refl (v : Option JsVal) : jsEq v v = true := by
  match v with
  | none => rfl
  | some JsVal.nullV => rfl
  | some (JsVal.strV s) => simp [jsEq]

/-- JavaScript `!=` never distinguishes a value from itself. -/
theorem jsNeq_self (v : Option JsVal) : jsNeq v v = false := by
  simp [jsNeq, jsEq_refl]

/-! ## Claim theorems -/

/-- C9: unregistering a handler id absent from an `EventSource` (also an
id already removed, e.g. by disposing its registrar token a second time)
does not fail and leaves the registered handlers unchanged, so a
subsequent `notify` still invokes exactly the other registered
handlers. -/
theorem eventSource_unregister_absent_noop {H : Type}
    (es : EventSource H) (idA idB : String) (h : idA ∉ es.ids) :
    es.unregister idA = es ∧
    (es.unregister idA).notifyTargets = es.notifyTargets ∧
    (es.unregister idB).unregister idB = es.unregister idB := by
  obtain ⟨hs⟩ := es
  simp only [EventSource.ids, List.mem_map, not_exists, not_and] at h
  have h1 : EventSource.unregister ⟨hs⟩ idA = (⟨hs⟩ : EventSource H) := by
    simp only [EventSource.unregister, EventSource.mk.injEq]
    apply List.filter_eq_self.mpr
    intro kv hkv
    simp only [Bool.not_eq_true', beq_eq_false_iff_ne]
    exact h kv hkv
  refine ⟨h1, by rw [h1], ?_⟩
  simp [EventSource.unregister, List.filter_filter]

/-- C9 witness: removing the absent id `c` from a two-handler source is
a no-op. -/
theorem eventSource_unregister_absent_noop_witness :
    ("c" ∉ (EventSource.mk [("a", 0), ("b", 1)] : EventSource Nat).ids) ∧
    ((EventSource.mk [("a", 0), ("b", 1)] : EventSource Nat).unregister "c" =
        EventSource.mk [("a", 0), ("b", 1)] ∧
      ((EventSource.mk [("a", 0), ("b", 1)] : EventSource Nat).unregister
            "c").notifyTargets =
        (EventSource.mk [("a", 0), ("b", 1)] : EventSource Nat).notifyTargets ∧
      (((EventSource.mk [("a", 0), ("b", 1)] : EventSource Nat).unregister
            "b").unregister "b") =
        (EventSource.mk [("a", 0), ("b", 1)] : EventSource Nat).unregister
          "b") :=
  ⟨by decide,
   eventSource_unregister_absent_noop
     (EventSource.mk [("a", 0), ("b", 1)]) "c" "b" (by decide)⟩

/-- C10 counterexample: a `SelectiveLogger` whose core logger is
disabled still forwards `info` messages when its level is `info` — the
guard `(this.enabled && this.level == LogLevelDebug) || this.level ==
LogLevelInfo` does not gate the second disjunct on `enabled`. -/
theorem selectiveLogger_info_forwards_when_disabled :
    (SelectiveLogger.mk false LogLevel.info).enabled = false ∧
    (SelectiveLogger.mk false LogLevel.info).infoForwards = true := by
  exact ⟨rfl, rfl⟩

/-- C10 amended: with a disabled core logger, `debug`, `warn` and
`error` forward nothing, and `info` forwards exactly when the configured
level is `info`. -/
theorem selectiveLogger_disabled_filtering (l : SelectiveLogger)
    (h : l.enabled = false) :
    l.debugForwards = false ∧ l.warnForwards = false ∧
    l.errorForwards = false ∧
    l.infoForwards = (l.level == LogLevel.info) := by
  obtain ⟨e, lv⟩ := l
  simp only [SelectiveLogger.enabled] at h
  subst h
  simp [SelectiveLogger.debugForwards, SelectiveLogger.warnForwards,
    SelectiveLogger.errorForwards, SelectiveLogger.infoForwards,
    SelectiveLogger.enabled]

/-- C10 witness: a disabled logger at level `warning` forwards none of
the four kinds. -/
theorem selectiveLogger_disabled_filtering_witness :
    (SelectiveLogger.mk false LogLevel.warning).enabled = false ∧
    ((SelectiveLogger.mk false LogLevel.warning).debugForwards = false ∧
      (SelectiveLogger.mk false LogLevel.warning).warnForwards = false ∧
      (SelectiveLogger.mk false LogLevel.warning).errorForwards = false ∧
      (SelectiveLogger.mk false LogLevel.warning).infoForwards =
        ((SelectiveLogger.mk false LogLevel.warning).level ==
          LogLevel.info)) :=
  ⟨rfl, selectiveLogger_disabled_filtering
    (SelectiveLogger.mk false LogLevel.warning) rfl⟩

/-- C1: `subscribeToProperty` on a registered property name never
succeeds — the `isEventSource` guard reads the field `handler`, but the
`Map` field of every `ConfigurationProperty` is called `handlers`, so
the guard always fails and the `NotObservableError` branch is always
taken. -/
theorem subscribeToProperty_always_notObservable :
    (demoConfig.getProperty "propA").isSome = true ∧
    isEventSource = false ∧
    demoConfig.subscribeToProperty "propA" =
      Except.error SubscribeError.notObservable := by
  exact ⟨rfl, rfl, rfl⟩

/-- C2 counterexample: a cached property whose stored value is
`undefined` and whose re-read raw value is `null` has changed to a
different value, yet fires zero notifications — the comparison is
JavaScript `!=`, under which `undefined` and `null` are equal. -/
theorem reload_undefined_to_null_no_notify :
    (cachedMeta.reload cachedMeta.initState nullCfg).1.value ≠
      cachedMeta.initState.value ∧
    (cachedMeta.reload cachedMeta.initState nullCfg).2 = [] := by
  exact ⟨by decide, rfl⟩

/-- C2 amended: each reload of a cached property compares the re-read
raw value to the stored value with JavaScript loose equality (under
which `null` and `undefined` are equal) and fires the embedded
EventSource exactly once, carrying the new value, iff the new value
loosely differs from the old; a second reload with an unchanged raw
value fires zero notifications, and for the raw value sequence
`A, A, B` (strings, `A ≠ B`, starting from stored value `A`) exactly
one notification fires, carrying `B`. -/
theorem reload_notify_iff_loosely_changed
    (m : PropMeta) (s : PropState) (cfg cfg1 cfg2 cfg3 : WorkspaceConfig)
    (a b : String)
    (hc : m.cached = true) (hab : a ≠ b)
    (hs : s.value = some (JsVal.strV a))
    (h1 : m.readRaw cfg1 = some (JsVal.strV a))
    (h2 : m.readRaw cfg2 = some (JsVal.strV a))
    (h3 : m.readRaw cfg3 = some (JsVal.strV b)) :
    ((m.reload s cfg).2 =
      if jsNeq s.value (m.readRaw cfg) then [m.readRaw cfg] else []) ∧
    ((m.reload (m.reload s cfg).1 cfg).2 = []) ∧
    ((m.reload s cfg1).2 ++ (m.reload (m.reload s cfg1).1 cfg2).2 ++
        (m.reload (m.reload (m.reload s cfg1).1 cfg2).1 cfg3).2 =
      [some (JsVal.strV b)]) ∧
    ((m.reload (m.reload (m.reload s cfg1).1 cfg2).1 cfg3).1.value =
      some (JsVal.strV b)) := by
  have hba : (a == b) = false := beq_eq_false_iff_ne.mpr hab
  refine ⟨?_, ?_, ?_, ?_⟩
  · simp [PropMeta.reload, PropMeta.refresh, hc]
  · simp [PropMeta.reload, PropMeta.refresh, hc, jsNeq_self]
  · simp [PropMeta.reload, PropMeta.refresh, hc, h1, h2, h3, hs,
      jsNeq, jsEq, hba]
  · simp [PropMeta.reload, PropMeta.refresh, hc, h1, h2, h3, hs,
      jsNeq, jsEq, hba]

/-- C2 witness: the amended statement at a concrete cached property with
stored value `"A"` and raw reads `"A"`, `"A"`, `"B"`. -/
theorem reload_notify_iff_loosely_changed_witness :
    (cachedMeta.cached = true ∧ "A" ≠ "B" ∧
      (PropState.mk (some (JsVal.strV "A")) true).value =
        some (JsVal.strV "A") ∧
      cachedMeta.readRaw (strCfg "A") = some (JsVal.strV "A") ∧
      cachedMeta.readRaw (strCfg "B") = some (JsVal.strV "B")) ∧
    (((cachedMeta.reload (PropState.mk (some (JsVal.strV "A")) true)
          (strCfg "A")).2 =
        if jsNeq (PropState.mk (some (JsVal.strV "A")) true).value
            (cachedMeta.readRaw (strCfg "A")) then
          [cachedMeta.readRaw (strCfg "A")]
        else []) ∧
      ((cachedMeta.reload
          (cachedMeta.reload (PropState.mk (some (JsVal.strV "A")) true)
            (strCfg "A")).1 (strCfg "A")).2 = []) ∧
      ((cachedMeta.reload (PropState.mk (some (JsVal.strV "A")) true)
            (strCfg "A")).2 ++
          (cachedMeta.reload
            (cachedMeta.reload
              (PropState.mk (some (JsVal.strV "A")) true) (strCfg "A")).1
            (strCfg "A")).2 ++
          (cachedMeta.reload
            (cachedMeta.reload
              (cachedMeta.reload
                (PropState.mk (some (JsVal.strV "A")) true)
                (strCfg "A")).1 (strCfg "A")).1 (strCfg "B")).2 =
        [some (JsVal.strV "B")]) ∧
      ((cachedMeta.reload
          (cachedMeta.reload
            (cachedMeta.reload (PropState.mk (some (JsVal.strV "A")) true)
              (strCfg "A")).1 (strCfg "A")).1 (strCfg "B")).1.value =
        some (JsVal.strV "B"))) :=
  ⟨⟨rfl, by decide, rfl, rfl, rfl⟩,
   reload_notify_iff_loosely_changed cachedMeta
     (PropState.mk (some (JsVal.strV "A")) true)
     (strCfg "A") (strCfg "A") (strCfg "A") (strCfg "B") "A" "B"
     rfl (by decide) rfl rfl rfl rfl⟩

/-- C3 counterexample: a property whose default value is the empty
string (present, not `undefined`) does not fall back to it on a missing
raw key — the default branch is selected by JavaScript truthiness, so a
falsy default is ignored and the stored value becomes `undefined`. -/
theorem reload_ignores_falsy_default :
    emptyStrDefaultMeta.defaultValue ≠ none ∧
    emptyCfg emptyStrDefaultMeta.name = none ∧
    (emptyStrDefaultMeta.reload emptyStrDefaultMeta.initState
        emptyCfg).1.value = none := by
  exact ⟨by decide, rfl, rfl⟩

/-- C3 amended: `reload` and `get` never fail on a missing raw key; the
fallback to `defaultValue` applies when the default is truthy, while a
falsy default (`undefined`, `null` or the empty string) is ignored, so a
missing source entry then yields the stored value `undefined`. -/
theorem readRaw_missing_key_fallback (m : PropMeta) (s : PropState)
    (cfg : WorkspaceConfig) (h : cfg m.name = none) :
    m.readRaw cfg =
      (if jsTruthy m.defaultValue then m.defaultValue else none) ∧
    (m.cached = true → (m.reload s cfg).1.value =
      (if jsTruthy m.defaultValue then m.defaultValue else none)) ∧
    (m.cached = false → (m.get s cfg).1 =
      (if jsTruthy m.defaultValue then m.defaultValue else none)) := by
  have hr : m.readRaw cfg =
      (if jsTruthy m.defaultValue then m.defaultValue else none) := by
    simp only [PropMeta.readRaw, cfgGetD, cfgGet, h]
  refine ⟨hr, ?_, ?_⟩
  · intro hc
    simp [PropMeta.reload, PropMeta.refresh, hc, hr]
  · intro hc
    simp [PropMeta.get, PropMeta.refresh, hc, hr]

/-- C3 witness: the amended statement at a cached property with the
truthy default `"dflt"` over the empty raw source. -/
theorem readRaw_missing_key_fallback_witness :
    emptyCfg truthyDefaultMeta.name = none ∧
    (truthyDefaultMeta.readRaw emptyCfg =
      (if jsTruthy truthyDefaultMeta.defaultValue then
        truthyDefaultMeta.defaultValue else none) ∧
    (truthyDefaultMeta.cached = true →
      (truthyDefaultMeta.reload truthyDefaultMeta.initState
          emptyCfg).1.value =
        (if jsTruthy truthyDefaultMeta.defaultValue then
          truthyDefaultMeta.defaultValue else none)) ∧
    (truthyDefaultMeta.cached = false →
      (truthyDefaultMeta.get truthyDefaultMeta.initState emptyCfg).1 =
        (if jsTruthy truthyDefaultMeta.defaultValue then
          truthyDefaultMeta.defaultValue else none))) :=
  ⟨rfl, readRaw_missing_key_fallback truthyDefaultMeta
    truthyDefaultMeta.initState emptyCfg rfl⟩

/-- C4: for an uncached property, `reload` is a no-op (state and
notifications untouched) and every `get` re-reads from the source and
returns the just-read value; for a cached property, `get` returns the
stored value without modifying state, without notifying, and without
reading the source (its result is the same over any two sources). -/
theorem cached_uncached_axis (m : PropMeta) (s : PropState)
    (cfg cfg' : WorkspaceConfig) :
    (m.cached = false →
      m.reload s cfg = (s, []) ∧
      (m.get s cfg).1 = m.readRaw cfg ∧
      (m.get s cfg).2.1 =
        PropState.mk (m.readRaw cfg) (m.validator (m.readRaw cfg))) ∧
    (m.cached = true →
      m.get s cfg = (s.value, s, []) ∧
      m.get s cfg = m.get s cfg') := by
  constructor
  · intro hc
    refine ⟨?_, ?_, ?_⟩ <;>
      simp [PropMeta.reload, PropMeta.get, PropMeta.refresh, hc]
  · intro hc
    constructor <;> simp [PropMeta.get, hc]

/-- C4 witness: the axis at the concrete uncached property `propB` and
cached property `propA`. -/
theorem cached_uncached_axis_witness :
    (uncachedMeta.cached = false ∧
      (uncachedMeta.reload (PropState.mk none true) (strCfg "A") =
          (PropState.mk none true, []) ∧
        (uncachedMeta.get (PropState.mk none true) (strCfg "A")).1 =
          uncachedMeta.readRaw (strCfg "A") ∧
        (uncachedMeta.get (PropState.mk none true) (strCfg "A")).2.1 =
          PropState.mk (uncachedMeta.readRaw (strCfg "A"))
            (uncachedMeta.validator (uncachedMeta.readRaw (strCfg "A"))))) ∧
    (cachedMeta.cached = true ∧
      (cachedMeta.get (PropState.mk none true) (strCfg "A") =
          ((PropState.mk none true).value, PropState.mk none true, []) ∧
        cachedMeta.get (PropState.mk none true) (strCfg "A") =
          cachedMeta.get (PropState.mk none true) (strCfg "B"))) :=
  ⟨⟨rfl, (cached_uncached_axis uncachedMeta (PropState.mk none true)
      (strCfg "A") (strCfg "B")).1 rfl⟩,
   ⟨rfl, (cached_uncached_axis cachedMeta (PropState.mk none true)
      (strCfg "A") (strCfg "B")).2 rfl⟩⟩

/-- C5: the change handler reloads exactly the owned properties whose
long qualified name `<configurationName>.<propertyName>` is reported
affected at this registry's workspace scope, and leaves every other
property's state untouched. -/
theorem handleConfigChange_scoped_dispatch
    (c : Configuration) (affects : String → String → Bool)
    (cfg : WorkspaceConfig) (i : Nat) (m : PropMeta) (s : PropState)
    (h : c.entries[i]? = some (m, s)) :
    (c.handleConfigChange affects cfg).entries[i]? =
      some (if affects (c.configurationName ++ "." ++ m.name) c.workspaceUri
        then (m, (m.reload s cfg).1)
        else (m, s)) := by
  simp only [Configuration.handleConfigChange]
  rw [List.getElem?_map, h]
  simp only [Option.map_some', Configuration.getPropertyIdentifier, if_true]

/-- C5 witness: an event affecting exactly `myExt.propA` in workspace
`wsW` reloads `propA` of the registry bound to `wsW` and leaves `propB`
untouched. -/
theorem handleConfigChange_scoped_dispatch_witness :
    (demoConfig.entries[0]? =
        some (cachedMeta, PropState.mk none true) ∧
      demoConfig.entries[1]? =
        some (uncachedMeta, PropState.mk none true)) ∧
    ((demoConfig.handleConfigChange demoAffects (strCfg "A")).entries[0]? =
      some (if demoAffects
          (demoConfig.configurationName ++ "." ++ cachedMeta.name)
          demoConfig.workspaceUri
        then (cachedMeta,
          (cachedMeta.reload (PropState.mk none true) (strCfg "A")).1)
        else (cachedMeta, PropState.mk none true))) ∧
    ((demoConfig.handleConfigChange demoAffects (strCfg "A")).entries[1]? =
      some (if demoAffects
          (demoConfig.configurationName ++ "." ++ uncachedMeta.name)
          demoConfig.workspaceUri
        then (uncachedMeta,
          (uncachedMeta.reload (PropState.mk none true) (strCfg "A")).1)
        else (uncachedMeta, PropState.mk none true))) :=
  ⟨⟨rfl, rfl⟩,
   handleConfigChange_scoped_dispatch demoConfig demoAffects (strCfg "A")
     0 cachedMeta (PropState.mk none true) rfl,
   handleConfigChange_scoped_dispatch demoConfig demoAffects (strCfg "A")
     1 uncachedMeta (PropState.mk none true) rfl⟩

/-- C6: `getResolvedPropertyValue` on a known name reads the raw value
via the property's `get` and resolves it through the registry's default
resolver chain followed by the property's own resolvers — the property
chain sees the output of the registry chain. -/
theorem getResolvedPropertyValue_resolver_order
    (c : Configuration) (name : String) (cfg : WorkspaceConfig)
    (m : PropMeta) (s : PropState) (str : String)
    (h : c.getProperty name = some (m, s))
    (hstr : (m.get s cfg).1 = some (JsVal.strV str)) :
    (c.getResolvedPropertyValue name cfg).1 =
      c.resolveValue (m.get s cfg).1 m.symbolResolvers ∧
    (c.getResolvedPropertyValue name cfg).1 =
      some (JsVal.strV (m.symbolResolvers.foldl (fun acc r => r acc)
        (c.symbolResolvers.foldl (fun acc r => r acc) str))) := by
  have h1 : (c.getResolvedPropertyValue name cfg).1 =
      c.resolveValue (m.get s cfg).1 m.symbolResolvers := by
    simp [Configuration.getResolvedPropertyValue, h]
  refine ⟨h1, ?_⟩
  rw [h1]
  simp [Configuration.resolveValue, resolveSymbols, hstr,
    List.foldl_append]

/-- C6 witness: with default chain `[workspaceSymbolResolver "/ws"]` and
property resolver `xResolver`, the raw string
`$\x7bworkspaceFolder\x7d/$\x7bx\x7d` of `propR` resolves to `/ws/42`. -/
theorem getResolvedPropertyValue_resolver_order_witness :
    (resolverDemoConfig.getProperty "propR" =
        some (resolverDemoMeta, PropState.mk none true) ∧
      (resolverDemoMeta.get (PropState.mk none true) resolverDemoCfg).1 =
        some (JsVal.strV "$\x7bworkspaceFolder\x7d/$\x7bx\x7d")) ∧
    ((resolverDemoConfig.getResolvedPropertyValue "propR"
          resolverDemoCfg).1 =
        resolverDemoConfig.resolveValue
          (resolverDemoMeta.get (PropState.mk none true)
            resolverDemoCfg).1 resolverDemoMeta.symbolResolvers ∧
      (resolverDemoConfig.getResolvedPropertyValue "propR"
          resolverDemoCfg).1 =
        some (JsVal.strV (resolverDemoMeta.symbolResolvers.foldl
          (fun acc r => r acc)
          (resolverDemoConfig.symbolResolvers.foldl (fun acc r => r acc)
            "$\x7bworkspaceFolder\x7d/$\x7bx\x7d")))) ∧
    (resolverDemoConfig.getResolvedPropertyValue "propR"
        resolverDemoCfg).1 = some (JsVal.strV "/ws/42") :=
  ⟨⟨rfl, rfl⟩,
   getResolvedPropertyValue_resolver_order resolverDemoConfig "propR"
     resolverDemoCfg resolverDemoMeta (PropState.mk none true)
     "$\x7bworkspaceFolder\x7d/$\x7bx\x7d" rfl rfl,
   by decide⟩

/-- C7: `valid` equals `validator(value)` after construction and after
every `reload`/`get`; `isValid` only returns the stored flag, and an
invalid raw value is still stored — `refresh` writes the re-read value
unconditionally. -/
theorem valid_reflects_validator (m : PropMeta) (s : PropState)
    (cfg : WorkspaceConfig) (h : s.valid = m.validator s.value) :
    m.initState.valid = m.validator m.initState.value ∧
    (m.reload s cfg).1.valid = m.validator (m.reload s cfg).1.value ∧
    (m.get s cfg).2.1.valid = m.validator (m.get s cfg).2.1.value ∧
    m.isValid s = s.valid ∧
    (m.refresh s cfg).1.value = m.readRaw cfg := by
  refine ⟨rfl, ?_, ?_, rfl, rfl⟩
  · by_cases hc : m.cached <;>
      simp [PropMeta.reload, PropMeta.refresh, hc, h]
  · by_cases hc : m.cached <;>
      simp [PropMeta.get, PropMeta.refresh, hc, h]

/-- C7 witness: the invariant at the property `propE`, whose validator
rejects everything but `"ok"`, over a source answering `"bad"` — the
invalid value is stored and `valid` becomes `false`. -/
theorem valid_reflects_validator_witness :
    (pickyMeta.initState.valid =
        pickyMeta.validator pickyMeta.initState.value) ∧
    (pickyMeta.initState.valid =
        pickyMeta.validator pickyMeta.initState.value ∧
      (pickyMeta.reload pickyMeta.initState (strCfg "bad")).1.valid =
        pickyMeta.validator
          (pickyMeta.reload pickyMeta.initState (strCfg "bad")).1.value ∧
      (pickyMeta.get pickyMeta.initState (strCfg "bad")).2.1.valid =
        pickyMeta.validator
          (pickyMeta.get pickyMeta.initState (strCfg "bad")).2.1.value ∧
      pickyMeta.isValid pickyMeta.initState = pickyMeta.initState.valid ∧
      (pickyMeta.refresh pickyMeta.initState (strCfg "bad")).1.value =
        pickyMeta.readRaw (strCfg "bad")) :=
  ⟨rfl, valid_reflects_validator pickyMeta pickyMeta.initState
    (strCfg "bad") rfl⟩

/-- C8: an unknown property name makes `getProperty` answer `undefined`
(embedded in the lookup itself), makes `getResolvedPropertyValue`
answer `undefined` with the registry unchanged, and makes
`subscribeToProperty` throw the unknown-property error. -/
theorem unknown_name_safety (c : Configuration) (name : String)
    (cfg : WorkspaceConfig) (h : c.getProperty name = none) :
    c.getResolvedPropertyValue name cfg = (none, c) ∧
    c.subscribeToProperty name =
      Except.error SubscribeError.unknownProperty := by
  constructor
  · simp [Configuration.getResolvedPropertyValue, h]
  · simp [Configuration.subscribeToProperty, h]

/-- C8 witness: the lookup for `doesNotExist` fails on the demo registry
and both callers behave as claimed. -/
theorem unknown_name_safety_witness :
    demoConfig.getProperty "doesNotExist" = none ∧
    (demoConfig.getResolvedPropertyValue "doesNotExist" (strCfg "A") =
        (none, demoConfig) ∧
      demoConfig.subscribeToProperty "doesNotExist" =
        Except.error SubscribeError.unknownProperty) :=
  ⟨rfl, unknown_name_safety demoConfig "doesNotExist" (strCfg "A") rfl⟩
